import Mathlib

/-!
Verification of the quiz-maze game engine (`main.py`) and its puzzle
registry (`puzzles.py`).

The engine is embedded shallowly: the mutable `GameEngine` object becomes
explicit state passing over a `Session` record (the in-memory session
fields) and a `Repo` record (the persistence store's contents).  The
topology provider (`maze.py`) and the persistence store (`db.py`) are not
part of the sources at hand, so their contracts are modelled from the
specification (sections 3, 6 and 8); everything else is translated
directly from the Python source.
-/

namespace QuizMaze

/-- Modelled from the spec: `Position` from the topology module — an
immutable `(row, col)` pair of grid coordinates with value equality. -/
structure Position where
  row : Int
  col : Int
deriving DecidableEq, Repr

/-- Modelled from the spec: `Direction` from the topology module — one of
North, South, East, West. -/
inductive Direction where
  | N
  | S
  | E
  | W
deriving DecidableEq, Repr

/-- The `.name` of a direction enum member, as used by
`GameEngine._available_move_tokens`. -/
def Direction.name : Direction → String
  | .N => "N"
  | .S => "S"
  | .E => "E"
  | .W => "W"

/-- Modelled from the spec: a maze cell's static data (`cell(pos) ->
{title, description, gate_id|none}`); the engine reads only title and
description. -/
structure Cell where
  title : String
  description : String
deriving DecidableEq, Repr

/-- The serialized game-state dictionary produced by
`GameEngine._serialize_state` and consumed by `GameEngine._load_state`.
Fields are optional because `_load_state` defaults each missing key. -/
structure GameState where
  pos : Option Position
  move_count : Option Nat
  solved_gates : Option (List String)
  started_at : Option String
  ended_at : Option String
deriving DecidableEq, Repr

/-- Modelled from the spec: the store's record for one game — the state
dictionary plus a status tag (`in_progress` or `completed`). -/
structure GameRecord where
  state : GameState
  status : String
deriving DecidableEq, Repr

/-- The metrics dictionary built in `GameEngine._maybe_finish`. -/
structure Metrics where
  elapsed_seconds : Nat
  moves : Nat
  puzzles_solved : Nat
deriving DecidableEq, Repr

/-- Modelled from the spec: one entry of the store's append-only score
ledger, as passed to `repo.record_score`. -/
structure ScoreRecord where
  player_id : String
  game_id : String
  maze_id : String
  maze_version : String
  metrics : Metrics
deriving DecidableEq, Repr

/-- Modelled from the spec: the persistence store's contents — a record
per game id, plus the append-only score ledger. -/
structure Repo where
  games : List (String × GameRecord)
  scores : List ScoreRecord
deriving DecidableEq, Repr

/-- Replace the record stored under `gid`, or append one if absent. -/
def saveGameList (gid : String) (rec : GameRecord) : List (String × GameRecord) → List (String × GameRecord)
  | [] => [(gid, rec)]
  | (k, v) :: t => if k = gid then (gid, rec) :: t else (k, v) :: saveGameList gid rec t

/-- Modelled from the spec: `get_game(game_id) -> record | none`. -/
def Repo.get_game (r : Repo) (gid : String) : Option GameRecord :=
  (r.games.find? (fun kv => kv.1 = gid)).map (fun kv => kv.2)

/-- Modelled from the spec: `save_game(game_id, state, status)` overwrites
the durable record for that game. -/
def Repo.save_game (r : Repo) (gid : String) (rec : GameRecord) : Repo :=
  { r with games := saveGameList gid rec r.games }

/-- Modelled from the spec: `record_score(...)` appends to the score
ledger. -/
def Repo.record_score (r : Repo) (rec : ScoreRecord) : Repo :=
  { r with scores := rec :: r.scores }

/-- A puzzle as the engine sees it (`puzzles.get(...)` result): id, title,
prompt and the answer-checking predicate, which may consult the serialized
state. -/
structure Puzzle where
  id : String
  title : String
  prompt : String
  check : String → GameState → Bool

/-- Modelled from the spec: the topology provider contract consumed by the
engine — `start`, `exit`, sizes, ids, `cell`, `available_moves`,
`next_pos`, `gate_id_for`.  The source attribute `exit` is called
`exitPos` here. -/
structure Maze where
  start : Position
  exitPos : Position
  width : Nat
  height : Nat
  maze_id : String
  maze_version : String
  cell : Position → Cell
  available_moves : Position → List Direction
  next_pos : Position → Direction → Option Position
  gate_id_for : Position → Direction → Option String

/-- The in-memory session fields of a `GameEngine` instance
(`_pos`, `_move_count`, `_solved_gates`, `_started_at`,
`_pending_gate_id`, `_is_complete`, `_score_recorded`). -/
structure Session where
  pos : Position
  move_count : Nat
  solved_gates : List String
  started_at : Option String
  pending_gate_id : Option String
  is_complete : Bool
  score_recorded : Bool
deriving DecidableEq, Repr

/-- Python `set.add` on the duplicate-free list representing
`_solved_gates`: a no-op when the element is already present. -/
def setAdd (x : String) (l : List String) : List String :=
  if x ∈ l then l else x :: l

/-- `Command` from `main.py`: a normalized (verb, args) pair. -/
structure Command where
  verb : String
  args : List String
deriving DecidableEq, Repr

/-- The pending-puzzle payload built by
`GameEngine._pending_puzzle_payload`. -/
structure PuzzlePayload where
  puzzle_id : String
  title : String
  prompt : String
deriving DecidableEq, Repr

/-- `GameView` from `main.py`: the UI-agnostic state projection. -/
structure GameView where
  pos : Position
  cell_title : String
  cell_description : String
  available_moves : List String
  pending_puzzle : Option PuzzlePayload
  is_complete : Bool
  move_count : Nat
deriving DecidableEq, Repr

/-- `GameOutput` from `main.py`: view + messages + did-persist flag. -/
structure GameOutput where
  view : GameView
  messages : List String
  did_persist : Bool
deriving DecidableEq, Repr

/-- The engine's real-time dependencies, made explicit: `_utc_now_iso()`
(used for `ended_at`) and `_elapsed_seconds` applied to `started_at`. -/
structure Clock where
  now : String
  elapsed : Option String → Nat

/-- The immutable collaborators held by a `GameEngine` instance: the maze,
the puzzle lookup (its `get` method), and the player/game identifiers. -/
structure Cfg where
  maze : Maze
  puzzles : String → Puzzle
  player_id : String
  game_id : String

/-- Python `str.lower()` (ASCII case mapping), character by character. -/
def pyLower (s : String) : String := String.mk (s.data.map Char.toLower)

/-- Python `str.upper()` (ASCII case mapping), character by character. -/
def pyUpper (s : String) : String := String.mk (s.data.map Char.toUpper)

/-- Python `str.strip()`: drop leading and trailing whitespace. -/
def pyStrip (s : String) : String :=
  String.mk (((s.data.dropWhile Char.isWhitespace).reverse.dropWhile Char.isWhitespace).reverse)

/-- Lexicographic (code-point) string order, Python's `<=` on strings. -/
def lexLe (a b : String) : Bool :=
  go a.data b.data
where
  go : List Char → List Char → Bool
    | [], _ => true
    | _ :: _, [] => false
    | c :: cs, d :: ds => if c < d then true else if c = d then go cs ds else false

/-- Insert a string into an already-sorted list, keeping it sorted. -/
def insertSorted (x : String) : List String → List String
  | [] => [x]
  | y :: ys => if lexLe x y then x :: y :: ys else y :: insertSorted x ys

/-- Ascending lexicographic sort of a list of strings (Python's
`sorted`). -/
def sortStrings : List String → List String
  | [] => []
  | x :: xs => insertSorted x (sortStrings xs)

/-- `GameEngine._direction_from_token`: trim, uppercase, expand the full
cardinal names, then look the single letter up among the enum members. -/
def directionFromToken : Option String → Option Direction
  | none => none
  | some token =>
    let t0 := pyUpper (pyStrip token)
    let t := if t0 = "NORTH" then "N"
      else if t0 = "SOUTH" then "S"
      else if t0 = "EAST" then "E"
      else if t0 = "WEST" then "W"
      else t0
    if t = "N" then some Direction.N
    else if t = "S" then some Direction.S
    else if t = "E" then some Direction.E
    else if t = "W" then some Direction.W
    else none

/-- `GameEngine._serialize_state`. -/
def serializeState (clock : Clock) (s : Session) : GameState :=
  { pos := some s.pos
    move_count := some s.move_count
    solved_gates := some (sortStrings s.solved_gates)
    started_at := s.started_at
    ended_at := if s.is_complete then some clock.now else none }

/-- `GameEngine._persist`. -/
def persist (cfg : Cfg) (clock : Clock) (s : Session) (repo : Repo) (status : String) : Repo :=
  repo.save_game cfg.game_id { state := serializeState clock s, status := status }

/-- `GameEngine._pending_puzzle_payload`. -/
def pendingPuzzlePayload (cfg : Cfg) (s : Session) : Option PuzzlePayload :=
  s.pending_gate_id.map fun gid =>
    let puzzle := cfg.puzzles gid
    { puzzle_id := puzzle.id, title := puzzle.title, prompt := puzzle.prompt }

/-- `GameEngine._available_move_tokens`: the sorted direction names of the
provider's available moves at the current position. -/
def availableMoveTokens (cfg : Cfg) (s : Session) : List String :=
  sortStrings ((cfg.maze.available_moves s.pos).map Direction.name)

/-- `GameEngine._make_view`. -/
def makeView (cfg : Cfg) (s : Session) : GameView :=
  let cell := cfg.maze.cell s.pos
  { pos := s.pos
    cell_title := cell.title
    cell_description := cell.description
    available_moves := availableMoveTokens cfg s
    pending_puzzle := pendingPuzzlePayload cfg s
    is_complete := s.is_complete
    move_count := s.move_count }

/-- `GameEngine._maybe_finish`: completion check after a committed move;
persists with status `completed` and records a score at most once per
instance. -/
def maybeFinish (cfg : Cfg) (clock : Clock) (s : Session) (repo : Repo) : Session × Repo × Bool :=
  if s.pos = cfg.maze.exitPos then
    let s1 : Session := { s with is_complete := true }
    let repo1 := persist cfg clock s1 repo "completed"
    if s1.score_recorded then (s1, repo1, true)
    else
      let m : Metrics :=
        { elapsed_seconds := clock.elapsed s1.started_at
          moves := s1.move_count
          puzzles_solved := s1.solved_gates.length }
      ({ s1 with score_recorded := true },
        repo1.record_score
          { player_id := cfg.player_id
            game_id := cfg.game_id
            maze_id := cfg.maze.maze_id
            maze_version := cfg.maze.maze_version
            metrics := m },
        true)
  else (s, repo, false)

/-- The committed-move tail of `GameEngine.handle` (lines 197-206): ask
the provider for the resulting position, refuse on a wall, otherwise
commit, check completion, and persist. -/
def moveCommit (cfg : Cfg) (clock : Clock) (s : Session) (repo : Repo) (dir : Direction) :
    Session × Repo × GameOutput :=
  match cfg.maze.next_pos s.pos dir with
  | none => (s, repo, { view := makeView cfg s, messages := ["Blocked path."], did_persist := false })
  | some nxt =>
    let s1 : Session := { s with pos := nxt, move_count := s.move_count + 1 }
    let r := maybeFinish cfg clock s1 repo
    let s2 := r.1
    let repo2 := r.2.1
    let repo3 := if r.2.2 then repo2 else persist cfg clock s2 repo2 "in_progress"
    (s2, repo3, { view := makeView cfg s2, messages := [], did_persist := true })

/-- The movement arm of `GameEngine.handle` (lines 186-206), taking the
already-resolved optional direction. -/
def applyMove (cfg : Cfg) (clock : Clock) (s : Session) (repo : Repo) :
    Option Direction → Session × Repo × GameOutput
  | none => (s, repo, { view := makeView cfg s, messages := ["Invalid direction."], did_persist := false })
  | some dir =>
    match s.pending_gate_id with
    | some _ =>
      (s, repo, { view := makeView cfg s, messages := ["Solve the pending puzzle first."], did_persist := false })
    | none =>
      match cfg.maze.gate_id_for s.pos dir with
      | some g =>
        if g ∈ s.solved_gates then moveCommit cfg clock s repo dir
        else
          let s1 : Session := { s with pending_gate_id := some g }
          (s1, repo, { view := makeView cfg s1, messages := ["Puzzle required."], did_persist := false })
      | none => moveCommit cfg clock s repo dir

/-- The `answer` arm of `GameEngine.handle` (lines 164-177). -/
def answerStep (cfg : Cfg) (clock : Clock) (s : Session) (repo : Repo) (args : List String) :
    Session × Repo × GameOutput :=
  match s.pending_gate_id with
  | none => (s, repo, { view := makeView cfg s, messages := ["No pending puzzle."], did_persist := false })
  | some gid =>
    let answer := pyStrip (String.intercalate " " args)
    let puzzle := cfg.puzzles gid
    if puzzle.check answer (serializeState clock s) then
      let s1 : Session := { s with solved_gates := setAdd gid s.solved_gates, pending_gate_id := none }
      (s1, persist cfg clock s1 repo "in_progress",
        { view := makeView cfg s1, messages := ["Correct."], did_persist := true })
    else
      (s, repo, { view := makeView cfg s, messages := ["Incorrect answer."], did_persist := false })

/-- The `save` arm of `GameEngine.handle` (lines 160-162). -/
def saveStep (cfg : Cfg) (clock : Clock) (s : Session) (repo : Repo) :
    Session × Repo × GameOutput :=
  (s, persist cfg clock s repo (if s.is_complete then "completed" else "in_progress"),
    { view := makeView cfg s, messages := ["Progress saved."], did_persist := true })

/-- The normalized verb of a command: `(command.verb or "").strip().lower()`
from the first line of `GameEngine.handle`. -/
def normVerb (cmd : Command) : String := pyLower (pyStrip cmd.verb)

/-- `GameEngine.handle`: the engine's single command operation.  Total by
construction: every input yields a `GameOutput`, never an exception. -/
def handle (cfg : Cfg) (clock : Clock) (s : Session) (repo : Repo) (cmd : Command) :
    Session × Repo × GameOutput :=
  if normVerb cmd = "look" ∨ normVerb cmd = "map" then
    (s, repo, { view := makeView cfg s, messages := [], did_persist := false })
  else if normVerb cmd = "save" then saveStep cfg clock s repo
  else if normVerb cmd = "answer" then answerStep cfg clock s repo cmd.args
  else if normVerb cmd = "n" ∨ normVerb cmd = "s" ∨ normVerb cmd = "e" ∨ normVerb cmd = "w" then
    applyMove cfg clock s repo (directionFromToken (some (normVerb cmd)))
  else if normVerb cmd = "go" then
    applyMove cfg clock s repo (directionFromToken cmd.args.head?)
  else
    (s, repo, { view := makeView cfg s, messages := ["Unknown command."], did_persist := false })

/-- The direction a command resolves to when it is a movement command
(one of the `n`/`s`/`e`/`w` shorthands, or `go` with a direction
argument), mirroring the dispatch of `GameEngine.handle`. -/
def resolvedMoveDirection (cmd : Command) : Option Direction :=
  if normVerb cmd = "n" ∨ normVerb cmd = "s" ∨ normVerb cmd = "e" ∨ normVerb cmd = "w" then
    directionFromToken (some (normVerb cmd))
  else if normVerb cmd = "go" then directionFromToken cmd.args.head?
  else none

/-- Fold `handle` over a list of commands: one engine instance processing
a whole session. -/
def run (cfg : Cfg) (clock : Clock) : Session → Repo → List Command → Session × Repo
  | s, repo, [] => (s, repo)
  | s, repo, c :: cs =>
    let r := handle cfg clock s repo c
    run cfg clock r.1 r.2.1 cs

/-- The Python exception kinds relevant to engine construction.
`keyError` is what `GameEngine._load_state` raises; `unknownGameError` is
the distinct error kind the spec posits, present here only so the
specification's claim can be compared against the source. -/
inductive PyError where
  | keyError (msg : String)
  | unknownGameError (msg : String)
deriving DecidableEq, Repr

/-- Whether an error is the spec's posited `UnknownGameError` kind. -/
def PyError.isUnknownGame : PyError → Bool
  | .unknownGameError _ => true
  | _ => false

/-- `GameEngine.__init__` + `GameEngine._load_state`: fetch the persisted
record, fail on a missing game, otherwise rebuild the session fields
(with the source's defaults) and reset `pending_gate_id` to none. -/
def mkSession (maze : Maze) (repo : Repo) (game_id : String) : Except PyError Session :=
  match repo.get_game game_id with
  | none => Except.error (PyError.keyError ("Unknown game_id: " ++ game_id))
  | some game =>
    Except.ok
      { pos := game.state.pos.getD maze.start
        move_count := game.state.move_count.getD 0
        solved_gates := (game.state.solved_gates.getD []).dedup
        started_at := game.state.started_at
        pending_gate_id := none
        is_complete := game.status == "completed"
        score_recorded := false }

/-- Build a catalogue puzzle (`puzzles.py`'s `Puzzle` dataclass): `check`
tests the stripped, lowercased answer for membership in the accepted
tuple, ignoring the state argument. -/
def cataloguePuzzle (id title prompt : String) (accept : List String) : Puzzle :=
  { id := id, title := title, prompt := prompt
    check := fun answer _ => accept.contains (pyLower (pyStrip answer)) }

/-- `_PUZZLES` from `puzzles.py`. -/
def puzzleCatalogue : List Puzzle :=
  [ cataloguePuzzle "gate-python-basics-1" "Firewall Lattice — Python Basics"
      ("The firewall demands proof you speak Python.\n\n  What built-in function returns the number of items in a list?\n  (one word)")
      ["len", "len()"]
  , cataloguePuzzle "gate-python-basics-2" "Cipher Node — Data Types"
      ("A cipher panel blinks:\n\n  In Python, what keyword creates a function?\n  (one word)")
      ["def"]
  , cataloguePuzzle "gate-python-basics-3" "Memory Leak — Loops"
      ("The memory banks are leaking.  Patch the loop:\n\n  Which Python keyword exits a loop immediately?\n  (one word)")
      ["break"] ]

/-- `_FALLBACK` from `puzzles.py`. -/
def fallbackPuzzle : Puzzle :=
  cataloguePuzzle "__fallback__" "Unknown Gate"
    ("An unrecognized security gate blocks your path.\n\n  What is 1 + 1?\n  (number)")
    ["2"]

/-- `PuzzleRegistry.get`: dictionary lookup in `_BY_ID` with the fallback
as default.  The dictionary maps each id to the last catalogue entry
bearing it, hence the lookup over the reversed list. -/
def registryGet (puzzle_id : String) : Puzzle :=
  match puzzleCatalogue.reverse.find? (fun p => p.id = puzzle_id) with
  | some p => p
  | none => fallbackPuzzle

/-- The ids present in the puzzle catalogue. -/
def catalogueIds : List String := puzzleCatalogue.map Puzzle.id

/-!
Concrete fixtures for witnesses, modelled from the spec's example
scenario (section 8): a 3×3 grid, start (0,0), exit (2,2), every in-grid
edge open, and one gated edge from (0,0) going East whose puzzle accepts
the answer "solve".
-/

/-- Modelled from the spec: the unit row/col offset of each direction. -/
def dirOffset : Direction → Int × Int
  | .N => (-1, 0)
  | .S => (1, 0)
  | .E => (0, 1)
  | .W => (0, -1)

/-- Whether a position lies on the 3×3 grid. -/
def inBounds3 (p : Position) : Bool :=
  0 ≤ p.row && p.row < 3 && 0 ≤ p.col && p.col < 3

/-- One grid step in a direction. -/
def stepPos (p : Position) (d : Direction) : Position :=
  { row := p.row + (dirOffset d).1, col := p.col + (dirOffset d).2 }

/-- Modelled from the spec: `next_pos` of the example 3×3 maze — the
neighbouring cell, or none when it would leave the grid. -/
def testNext (p : Position) (d : Direction) : Option Position :=
  let q := stepPos p d
  if inBounds3 p && inBounds3 q then some q else none

/-- Modelled from the spec: `available_moves` of the example maze. -/
def testAvail (p : Position) : List Direction :=
  [Direction.N, Direction.S, Direction.E, Direction.W].filter
    (fun d => (testNext p d).isSome)

/-- Modelled from the spec: the example maze's one gated edge — from
(0,0) going East. -/
def testGate (p : Position) (d : Direction) : Option String :=
  if p = { row := 0, col := 0 } ∧ d = Direction.E then some "gate-1" else none

/-- Modelled from the spec: the example 3×3 maze as a topology provider. -/
def testMaze : Maze :=
  { start := { row := 0, col := 0 }
    exitPos := { row := 2, col := 2 }
    width := 3
    height := 3
    maze_id := "maze-3x3"
    maze_version := "1"
    cell := fun _ => { title := "Node", description := "A grid node." }
    available_moves := testAvail
    next_pos := testNext
    gate_id_for := testGate }

/-- Modelled from the spec: a puzzle lookup whose every puzzle accepts
the answer "solve", as in the example scenario. -/
def testPuzzles : String → Puzzle := fun gid =>
  { id := gid, title := "Gate", prompt := "Say the word."
    check := fun answer _ => pyLower (pyStrip answer) == "solve" }

/-- A fixed clock for concrete runs. -/
def testClock : Clock := { now := "2026-02-13T00:05:00Z", elapsed := fun _ => 0 }

/-- Concrete engine configuration for witnesses. -/
def testCfg : Cfg :=
  { maze := testMaze, puzzles := testPuzzles, player_id := "p1", game_id := "g1" }

/-- The initial persisted state the CLI writes for a fresh game. -/
def initState : GameState :=
  { pos := some { row := 0, col := 0 }
    move_count := some 0
    solved_gates := some []
    started_at := some "2026-02-13T00:00:00Z"
    ended_at := none }

/-- A store already holding the fresh game `g1`. -/
def testRepo : Repo :=
  { games := [("g1", { state := initState, status := "in_progress" })], scores := [] }

/-- The fresh session for `g1` (what `mkSession testMaze testRepo "g1"`
reconstructs). -/
def initSession : Session :=
  { pos := { row := 0, col := 0 }
    move_count := 0
    solved_gates := []
    started_at := some "2026-02-13T00:00:00Z"
    pending_gate_id := none
    is_complete := false
    score_recorded := false }

/-- The score-ledger invariant one engine instance maintains relative to
the ledger `S` it started from: either no completion has been detected
and nothing was recorded, or completion was detected, the in-memory guard
is set, and exactly one record was appended. -/
def ScoreInv (S : List ScoreRecord) (s : Session) (repo : Repo) : Prop :=
  (s.score_recorded = false ∧ s.is_complete = false ∧ repo.scores = S)
  ∨ (s.score_recorded = true ∧ s.is_complete = true ∧ repo.scores.length = S.length + 1)

/-- A session with the example gate pending, for concrete checks. -/
def pendingSession : Session := { initSession with pending_gate_id := some "gate-1" }

/-- A straight walk from the start to the exit of the example maze,
avoiding its gated edge. -/
def exitWalk : List Command :=
  [{ verb := "s", args := [] }, { verb := "s", args := [] },
   { verb := "e", args := [] }, { verb := "e", args := [] }]

/-- The exit walk followed by one further move off the exit cell. -/
def exitWalkAndBack : List Command :=
  exitWalk ++ [{ verb := "w", args := [] }]

/-- The fresh session after the example gate has been solved. -/
def solvedSession : Session := { initSession with solved_gates := ["gate-1"] }

/-! ## Store lemmas -/

theorem find?_saveGameList (gid : String) (rec : GameRecord) :
    ∀ l : List (String × GameRecord),
      (saveGameList gid rec l).find? (fun kv => kv.1 = gid) = some (gid, rec)
  | [] => by simp [saveGameList]
  | (k, v) :: t => by
    by_cases hk : k = gid
    · simp [saveGameList, hk]
    · simp only [saveGameList, if_neg hk, List.find?]
      have : (decide ((k, v).1 = gid)) = false := by simpa using hk
      rw [this]
      exact find?_saveGameList gid rec t

theorem get_game_save_game (r : Repo) (gid : String) (rec : GameRecord) :
    (r.save_game gid rec).get_game gid = some rec := by
  simp [Repo.get_game, Repo.save_game, find?_saveGameList]

theorem get_game_record_score (r : Repo) (rec : ScoreRecord) (gid : String) :
    (r.record_score rec).get_game gid = r.get_game gid := rfl

theorem get_game_persist (cfg : Cfg) (clock : Clock) (s : Session) (repo : Repo) (status : String) :
    (persist cfg clock s repo status).get_game cfg.game_id =
      some { state := serializeState clock s, status := status } :=
  get_game_save_game ..

theorem scores_persist (cfg : Cfg) (clock : Clock) (s : Session) (repo : Repo) (status : String) :
    (persist cfg clock s repo status).scores = repo.scores := rfl

theorem serializeState_score_recorded (clock : Clock) (s : Session) (b : Bool) :
    serializeState clock { s with score_recorded := b } = serializeState clock s := rfl

theorem serializeState_eq_of (clock : Clock) (s t : Session)
    (h1 : s.pos = t.pos) (h2 : s.move_count = t.move_count)
    (h3 : s.solved_gates = t.solved_gates) (h4 : s.started_at = t.started_at)
    (h5 : s.is_complete = t.is_complete) :
    serializeState clock s = serializeState clock t := by
  simp [serializeState, h1, h2, h3, h4, h5]

/-! ## Dispatch lemmas: which arm of `handle` a command reaches -/

theorem handle_eq_answerStep (cfg : Cfg) (clock : Clock) (s : Session) (repo : Repo)
    (cmd : Command) (hv : normVerb cmd = "answer") :
    handle cfg clock s repo cmd = answerStep cfg clock s repo cmd.args := by
  simp [handle, hv]

theorem handle_eq_saveStep (cfg : Cfg) (clock : Clock) (s : Session) (repo : Repo)
    (cmd : Command) (hv : normVerb cmd = "save") :
    handle cfg clock s repo cmd = saveStep cfg clock s repo := by
  simp [handle, hv]

theorem handle_eq_look (cfg : Cfg) (clock : Clock) (s : Session) (repo : Repo)
    (cmd : Command) (hv : normVerb cmd = "look" ∨ normVerb cmd = "map") :
    handle cfg clock s repo cmd =
      (s, repo, { view := makeView cfg s, messages := [], did_persist := false }) := by
  rcases hv with hv | hv <;> simp [handle, hv]

theorem handle_eq_applyMove (cfg : Cfg) (clock : Clock) (s : Session) (repo : Repo)
    (cmd : Command) (d : Direction) (hd : resolvedMoveDirection cmd = some d) :
    handle cfg clock s repo cmd = applyMove cfg clock s repo (some d) := by
  unfold resolvedMoveDirection at hd
  by_cases h1 : normVerb cmd = "n" ∨ normVerb cmd = "s" ∨ normVerb cmd = "e" ∨ normVerb cmd = "w"
  · rw [if_pos h1] at hd
    rcases h1 with hc | hc | hc | hc <;>
      · rw [hc] at hd
        simp [handle, hc, hd]
  · rw [if_neg h1] at hd
    by_cases h2 : normVerb cmd = "go"
    · rw [if_pos h2] at hd
      simp [handle, h2, hd]
    · rw [if_neg h2] at hd
      exact absurd hd (by simp)

theorem handle_eq_unknown (cfg : Cfg) (clock : Clock) (s : Session) (repo : Repo)
    (cmd : Command)
    (hv : normVerb cmd ∉ ["look", "map", "save", "answer", "n", "s", "e", "w", "go"]) :
    handle cfg clock s repo cmd =
      (s, repo, { view := makeView cfg s, messages := ["Unknown command."], did_persist := false }) := by
  simp only [List.mem_cons, List.mem_singleton, not_or] at hv
  obtain ⟨v1, v2, v3, v4, v5, v6, v7, v8, v9, -⟩ := hv
  simp [handle, v1, v2, v3, v4, v5, v6, v7, v8, v9]

theorem handle_cases (cfg : Cfg) (clock : Clock) (s : Session) (repo : Repo) (cmd : Command) :
    handle cfg clock s repo cmd = (s, repo, { view := makeView cfg s, messages := [], did_persist := false })
    ∨ handle cfg clock s repo cmd = saveStep cfg clock s repo
    ∨ handle cfg clock s repo cmd = answerStep cfg clock s repo cmd.args
    ∨ (∃ od, handle cfg clock s repo cmd = applyMove cfg clock s repo od)
    ∨ handle cfg clock s repo cmd =
        (s, repo, { view := makeView cfg s, messages := ["Unknown command."], did_persist := false }) := by
  unfold handle
  split_ifs
  · exact Or.inl rfl
  · exact Or.inr (Or.inl rfl)
  · exact Or.inr (Or.inr (Or.inl rfl))
  · exact Or.inr (Or.inr (Or.inr (Or.inl ⟨_, rfl⟩)))
  · exact Or.inr (Or.inr (Or.inr (Or.inl ⟨_, rfl⟩)))
  · exact Or.inr (Or.inr (Or.inr (Or.inr rfl)))

/-! ## Branch lemmas for the movement pipeline -/

theorem maybeFinish_not_exit (cfg : Cfg) (clock : Clock) (s : Session) (repo : Repo)
    (h : s.pos ≠ cfg.maze.exitPos) :
    maybeFinish cfg clock s repo = (s, repo, false) := by
  simp [maybeFinish, h]

theorem maybeFinish_exit_fresh (cfg : Cfg) (clock : Clock) (s : Session) (repo : Repo)
    (h : s.pos = cfg.maze.exitPos) (hr : s.score_recorded = false) :
    maybeFinish cfg clock s repo =
      ({ s with is_complete := true, score_recorded := true },
        (persist cfg clock { s with is_complete := true } repo "completed").record_score
          { player_id := cfg.player_id
            game_id := cfg.game_id
            maze_id := cfg.maze.maze_id
            maze_version := cfg.maze.maze_version
            metrics :=
              { elapsed_seconds := clock.elapsed s.started_at
                moves := s.move_count
                puzzles_solved := s.solved_gates.length } },
        true) := by
  simp [maybeFinish, h, hr]

theorem maybeFinish_exit_done (cfg : Cfg) (clock : Clock) (s : Session) (repo : Repo)
    (h : s.pos = cfg.maze.exitPos) (hr : s.score_recorded = true) :
    maybeFinish cfg clock s repo =
      ({ s with is_complete := true },
        persist cfg clock { s with is_complete := true } repo "completed", true) := by
  simp [maybeFinish, h, hr]

theorem maybeFinish_complete (cfg : Cfg) (clock : Clock) (s : Session) (repo : Repo) :
    (maybeFinish cfg clock s repo).1.is_complete = (s.is_complete || decide (s.pos = cfg.maze.exitPos)) := by
  by_cases h : s.pos = cfg.maze.exitPos
  · by_cases hr : s.score_recorded
    · rw [maybeFinish_exit_done cfg clock s repo h hr]
      simp [h]
    · rw [maybeFinish_exit_fresh cfg clock s repo h (by simpa using hr)]
      simp [h]
  · rw [maybeFinish_not_exit cfg clock s repo h]
    simp [h]

theorem applyMove_pending (cfg : Cfg) (clock : Clock) (s : Session) (repo : Repo)
    (d : Direction) (g : String) (hp : s.pending_gate_id = some g) :
    applyMove cfg clock s repo (some d) =
      (s, repo, { view := makeView cfg s, messages := ["Solve the pending puzzle first."], did_persist := false }) := by
  simp [applyMove, hp]

theorem applyMove_gate (cfg : Cfg) (clock : Clock) (s : Session) (repo : Repo)
    (d : Direction) (g : String) (hp : s.pending_gate_id = none)
    (hg : cfg.maze.gate_id_for s.pos d = some g) (hs : g ∉ s.solved_gates) :
    applyMove cfg clock s repo (some d) =
      ({ s with pending_gate_id := some g }, repo,
        { view := makeView cfg { s with pending_gate_id := some g },
          messages := ["Puzzle required."], did_persist := false }) := by
  simp [applyMove, hp, hg, hs]

theorem applyMove_eq_moveCommit (cfg : Cfg) (clock : Clock) (s : Session) (repo : Repo)
    (d : Direction) (hp : s.pending_gate_id = none)
    (hg : cfg.maze.gate_id_for s.pos d = none ∨
      ∃ g, cfg.maze.gate_id_for s.pos d = some g ∧ g ∈ s.solved_gates) :
    applyMove cfg clock s repo (some d) = moveCommit cfg clock s repo d := by
  rcases hg with hg | ⟨g, hg, hmem⟩
  · simp [applyMove, hp, hg]
  · simp [applyMove, hp, hg, hmem]

theorem moveCommit_blocked (cfg : Cfg) (clock : Clock) (s : Session) (repo : Repo)
    (d : Direction) (hn : cfg.maze.next_pos s.pos d = none) :
    moveCommit cfg clock s repo d =
      (s, repo, { view := makeView cfg s, messages := ["Blocked path."], did_persist := false }) := by
  simp [moveCommit, hn]

theorem moveCommit_step (cfg : Cfg) (clock : Clock) (s : Session) (repo : Repo)
    (d : Direction) (p : Position) (hn : cfg.maze.next_pos s.pos d = some p) :
    moveCommit cfg clock s repo d =
      ((maybeFinish cfg clock { s with pos := p, move_count := s.move_count + 1 } repo).1,
        (if (maybeFinish cfg clock { s with pos := p, move_count := s.move_count + 1 } repo).2.2
          then (maybeFinish cfg clock { s with pos := p, move_count := s.move_count + 1 } repo).2.1
          else persist cfg clock
            (maybeFinish cfg clock { s with pos := p, move_count := s.move_count + 1 } repo).1
            (maybeFinish cfg clock { s with pos := p, move_count := s.move_count + 1 } repo).2.1
            "in_progress"),
        { view := makeView cfg (maybeFinish cfg clock { s with pos := p, move_count := s.move_count + 1 } repo).1,
          messages := [], did_persist := true }) := by
  simp [moveCommit, hn]

theorem moveCommit_fst (cfg : Cfg) (clock : Clock) (s : Session) (repo : Repo)
    (d : Direction) (p : Position) (hn : cfg.maze.next_pos s.pos d = some p) :
    (moveCommit cfg clock s repo d).1 =
      (maybeFinish cfg clock { s with pos := p, move_count := s.move_count + 1 } repo).1 := by
  rw [moveCommit_step cfg clock s repo d p hn]

theorem moveCommit_scores (cfg : Cfg) (clock : Clock) (s : Session) (repo : Repo)
    (d : Direction) (p : Position) (hn : cfg.maze.next_pos s.pos d = some p) :
    (moveCommit cfg clock s repo d).2.1.scores =
      (maybeFinish cfg clock { s with pos := p, move_count := s.move_count + 1 } repo).2.1.scores := by
  rw [moveCommit_step cfg clock s repo d p hn]
  dsimp only
  split <;> simp [scores_persist]

theorem maybeFinish_flags (cfg : Cfg) (clock : Clock) (s : Session) (repo : Repo) :
    (maybeFinish cfg clock s repo).1.score_recorded
        = (s.score_recorded || decide (s.pos = cfg.maze.exitPos))
    ∧ (maybeFinish cfg clock s repo).1.is_complete
        = (s.is_complete || decide (s.pos = cfg.maze.exitPos))
    ∧ (s.pos = cfg.maze.exitPos → s.score_recorded = false →
        (maybeFinish cfg clock s repo).2.1.scores.length = repo.scores.length + 1)
    ∧ (¬(s.pos = cfg.maze.exitPos ∧ s.score_recorded = false) →
        (maybeFinish cfg clock s repo).2.1.scores = repo.scores) := by
  by_cases hc : s.pos = cfg.maze.exitPos
  · by_cases hr : s.score_recorded
    · rw [maybeFinish_exit_done cfg clock s repo hc hr]
      refine ⟨by simp [hc, hr], by simp [hc], ?_, ?_⟩
      · intro _ h2; rw [hr] at h2; cases h2
      · intro _; exact scores_persist ..
    · have hr' : s.score_recorded = false := by simpa using hr
      rw [maybeFinish_exit_fresh cfg clock s repo hc hr']
      refine ⟨by simp [hc], by simp [hc], ?_, ?_⟩
      · intro _ _; simp [Repo.record_score, scores_persist]
      · intro hcon; exact absurd ⟨hc, hr'⟩ hcon
  · rw [maybeFinish_not_exit cfg clock s repo hc]
    exact ⟨by simp [hc], by simp [hc], fun h _ => absurd h hc, fun _ => rfl⟩

/-! ## Invariants: completion is permanent, at most one score per instance -/

theorem answerStep_session (cfg : Cfg) (clock : Clock) (s : Session) (repo : Repo)
    (args : List String) :
    (answerStep cfg clock s repo args).1.is_complete = s.is_complete
    ∧ (answerStep cfg clock s repo args).1.score_recorded = s.score_recorded
    ∧ (answerStep cfg clock s repo args).2.1.scores = repo.scores := by
  unfold answerStep
  cases s.pending_gate_id <;> simp
  split <;> simp [scores_persist]

theorem moveCommit_complete_mono (cfg : Cfg) (clock : Clock) (s : Session) (repo : Repo)
    (d : Direction) (h : s.is_complete = true) :
    (moveCommit cfg clock s repo d).1.is_complete = true := by
  cases hn : cfg.maze.next_pos s.pos d with
  | none => rw [moveCommit_blocked cfg clock s repo d hn]; exact h
  | some p =>
    rw [moveCommit_fst cfg clock s repo d p hn, maybeFinish_complete]
    simp [h]

theorem applyMove_complete_mono (cfg : Cfg) (clock : Clock) (s : Session) (repo : Repo)
    (od : Option Direction) (h : s.is_complete = true) :
    (applyMove cfg clock s repo od).1.is_complete = true := by
  cases od with
  | none => exact h
  | some d =>
    cases hp : s.pending_gate_id with
    | some g => rw [applyMove_pending cfg clock s repo d g hp]; exact h
    | none =>
      cases hg : cfg.maze.gate_id_for s.pos d with
      | some g =>
        by_cases hm : g ∈ s.solved_gates
        · rw [applyMove_eq_moveCommit cfg clock s repo d hp (Or.inr ⟨g, hg, hm⟩)]
          exact moveCommit_complete_mono cfg clock s repo d h
        · rw [applyMove_gate cfg clock s repo d g hp hg hm]; exact h
      | none =>
        rw [applyMove_eq_moveCommit cfg clock s repo d hp (Or.inl hg)]
        exact moveCommit_complete_mono cfg clock s repo d h

theorem handle_complete_mono (cfg : Cfg) (clock : Clock) (s : Session) (repo : Repo)
    (cmd : Command) (h : s.is_complete = true) :
    (handle cfg clock s repo cmd).1.is_complete = true := by
  rcases handle_cases cfg clock s repo cmd with hc | hc | hc | ⟨od, hc⟩ | hc
  · rw [hc]; exact h
  · rw [hc]; exact h
  · rw [hc]; rw [(answerStep_session cfg clock s repo cmd.args).1]; exact h
  · rw [hc]; exact applyMove_complete_mono cfg clock s repo od h
  · rw [hc]; exact h

theorem run_complete_mono (cfg : Cfg) (clock : Clock) :
    ∀ (cs : List Command) (s : Session) (repo : Repo), s.is_complete = true →
      (run cfg clock s repo cs).1.is_complete = true
  | [], _s, _repo, h => h
  | c :: cs, s, repo, h =>
    run_complete_mono cfg clock cs _ _ (handle_complete_mono cfg clock s repo c h)

theorem moveCommit_scoreInv (cfg : Cfg) (clock : Clock) (s : Session) (repo : Repo)
    (d : Direction) (S : List ScoreRecord) (h : ScoreInv S s repo) :
    ScoreInv S (moveCommit cfg clock s repo d).1 (moveCommit cfg clock s repo d).2.1 := by
  cases hn : cfg.maze.next_pos s.pos d with
  | none => rw [moveCommit_blocked cfg clock s repo d hn]; exact h
  | some p =>
    rw [moveCommit_fst cfg clock s repo d p hn]
    unfold ScoreInv
    rw [moveCommit_scores cfg clock s repo d p hn]
    obtain ⟨msr, mic, mlen, msame⟩ :=
      maybeFinish_flags cfg clock { s with pos := p, move_count := s.move_count + 1 } repo
    rcases h with ⟨h1, h2, h3⟩ | ⟨h1, h2, h3⟩
    · by_cases hc : ({ s with pos := p, move_count := s.move_count + 1 } : Session).pos = cfg.maze.exitPos
      · have hc' : p = cfg.maze.exitPos := hc
        refine Or.inr ⟨?_, ?_, ?_⟩
        · rw [msr]; simp [hc']
        · rw [mic]; simp [hc']
        · rw [mlen hc h1, h3]
      · have hc' : ¬p = cfg.maze.exitPos := hc
        refine Or.inl ⟨?_, ?_, ?_⟩
        · rw [msr]; simp [hc', h1]
        · rw [mic]; simp [hc', h2]
        · rw [msame (fun hcon => hc hcon.1)]; exact h3
    · refine Or.inr ⟨?_, ?_, ?_⟩
      · rw [msr]; simp [h1]
      · rw [mic]; simp [h2]
      · rw [msame (fun hcon => by rw [h1] at hcon; cases hcon.2)]; exact h3

theorem applyMove_scoreInv (cfg : Cfg) (clock : Clock) (s : Session) (repo : Repo)
    (od : Option Direction) (S : List ScoreRecord) (h : ScoreInv S s repo) :
    ScoreInv S (applyMove cfg clock s repo od).1 (applyMove cfg clock s repo od).2.1 := by
  cases od with
  | none => exact h
  | some d =>
    cases hp : s.pending_gate_id with
    | some g => rw [applyMove_pending cfg clock s repo d g hp]; exact h
    | none =>
      cases hg : cfg.maze.gate_id_for s.pos d with
      | some g =>
        by_cases hm : g ∈ s.solved_gates
        · rw [applyMove_eq_moveCommit cfg clock s repo d hp (Or.inr ⟨g, hg, hm⟩)]
          exact moveCommit_scoreInv cfg clock s repo d S h
        · rw [applyMove_gate cfg clock s repo d g hp hg hm]
          rcases h with ⟨h1, h2, h3⟩ | ⟨h1, h2, h3⟩
          · exact Or.inl ⟨h1, h2, h3⟩
          · exact Or.inr ⟨h1, h2, h3⟩
      | none =>
        rw [applyMove_eq_moveCommit cfg clock s repo d hp (Or.inl hg)]
        exact moveCommit_scoreInv cfg clock s repo d S h

theorem handle_scoreInv (cfg : Cfg) (clock : Clock) (s : Session) (repo : Repo)
    (cmd : Command) (S : List ScoreRecord) (h : ScoreInv S s repo) :
    ScoreInv S (handle cfg clock s repo cmd).1 (handle cfg clock s repo cmd).2.1 := by
  rcases handle_cases cfg clock s repo cmd with hc | hc | hc | ⟨od, hc⟩ | hc
  · rw [hc]; exact h
  · rw [hc]
    rcases h with ⟨h1, h2, h3⟩ | ⟨h1, h2, h3⟩
    · exact Or.inl ⟨h1, h2, by simpa [saveStep, scores_persist] using h3⟩
    · exact Or.inr ⟨h1, h2, by simpa [saveStep, scores_persist] using h3⟩
  · rw [hc]
    obtain ⟨e1, e2, e3⟩ := answerStep_session cfg clock s repo cmd.args
    rcases h with ⟨h1, h2, h3⟩ | ⟨h1, h2, h3⟩
    · exact Or.inl ⟨by rw [e2]; exact h1, by rw [e1]; exact h2, by rw [e3]; exact h3⟩
    · exact Or.inr ⟨by rw [e2]; exact h1, by rw [e1]; exact h2, by rw [e3]; exact h3⟩
  · rw [hc]; exact applyMove_scoreInv cfg clock s repo od S h
  · rw [hc]; exact h

theorem run_scoreInv (cfg : Cfg) (clock : Clock) :
    ∀ (cs : List Command) (s : Session) (repo : Repo) (S : List ScoreRecord),
      ScoreInv S s repo → ScoreInv S (run cfg clock s repo cs).1 (run cfg clock s repo cs).2
  | [], _s, _repo, _, h => h
  | c :: cs, s, repo, S, h =>
    run_scoreInv cfg clock cs _ _ S (handle_scoreInv cfg clock s repo c S h)

/-! ## The committed move, fully characterized -/

theorem maybeFinish_preserves (cfg : Cfg) (clock : Clock) (s : Session) (repo : Repo) :
    (maybeFinish cfg clock s repo).1.pos = s.pos
    ∧ (maybeFinish cfg clock s repo).1.move_count = s.move_count
    ∧ (maybeFinish cfg clock s repo).1.solved_gates = s.solved_gates
    ∧ (maybeFinish cfg clock s repo).1.started_at = s.started_at
    ∧ (maybeFinish cfg clock s repo).1.pending_gate_id = s.pending_gate_id := by
  by_cases hc : s.pos = cfg.maze.exitPos
  · by_cases hr : s.score_recorded
    · rw [maybeFinish_exit_done cfg clock s repo hc hr]
      exact ⟨rfl, rfl, rfl, rfl, rfl⟩
    · rw [maybeFinish_exit_fresh cfg clock s repo hc (by simpa using hr)]
      exact ⟨rfl, rfl, rfl, rfl, rfl⟩
  · rw [maybeFinish_not_exit cfg clock s repo hc]
    exact ⟨rfl, rfl, rfl, rfl, rfl⟩

theorem moveCommit_get_game (cfg : Cfg) (clock : Clock) (s : Session) (repo : Repo)
    (d : Direction) (p : Position) (hn : cfg.maze.next_pos s.pos d = some p) :
    (moveCommit cfg clock s repo d).2.1.get_game cfg.game_id =
      some { state := serializeState clock (moveCommit cfg clock s repo d).1,
             status := if p = cfg.maze.exitPos then "completed" else "in_progress" } := by
  rw [moveCommit_step cfg clock s repo d p hn]
  dsimp only
  by_cases hc : p = cfg.maze.exitPos
  · have hc1 : ({ s with pos := p, move_count := s.move_count + 1 } : Session).pos
        = cfg.maze.exitPos := hc
    by_cases hr : s.score_recorded
    · rw [maybeFinish_exit_done cfg clock _ repo hc1 hr]
      simp [get_game_persist, hc]
    · rw [maybeFinish_exit_fresh cfg clock _ repo hc1 (by simpa using hr)]
      simp [Repo.record_score, Repo.get_game, Repo.save_game, persist, find?_saveGameList, hc]
      exact serializeState_eq_of clock _ _ rfl rfl rfl rfl rfl
  · have hc1 : ({ s with pos := p, move_count := s.move_count + 1 } : Session).pos
        ≠ cfg.maze.exitPos := hc
    rw [maybeFinish_not_exit cfg clock _ repo hc1]
    simp [get_game_persist, hc]

theorem moveCommit_commit (cfg : Cfg) (clock : Clock) (s : Session) (repo : Repo)
    (d : Direction) (p : Position) (hn : cfg.maze.next_pos s.pos d = some p) :
    (moveCommit cfg clock s repo d).1.pos = p
    ∧ (moveCommit cfg clock s repo d).1.move_count = s.move_count + 1
    ∧ (moveCommit cfg clock s repo d).1.solved_gates = s.solved_gates
    ∧ (moveCommit cfg clock s repo d).1.is_complete
        = (s.is_complete || decide (p = cfg.maze.exitPos))
    ∧ (moveCommit cfg clock s repo d).2.2.did_persist = true
    ∧ (moveCommit cfg clock s repo d).2.2.messages = []
    ∧ (moveCommit cfg clock s repo d).2.1.get_game cfg.game_id =
        some { state := serializeState clock (moveCommit cfg clock s repo d).1,
               status := if p = cfg.maze.exitPos then "completed" else "in_progress" } := by
  obtain ⟨e1, e2, e3, -, -⟩ :=
    maybeFinish_preserves cfg clock { s with pos := p, move_count := s.move_count + 1 } repo
  refine ⟨?_, ?_, ?_, ?_, ?_, ?_, moveCommit_get_game cfg clock s repo d p hn⟩
  · rw [moveCommit_fst cfg clock s repo d p hn, e1]
  · rw [moveCommit_fst cfg clock s repo d p hn, e2]
  · rw [moveCommit_fst cfg clock s repo d p hn, e3]
  · rw [moveCommit_fst cfg clock s repo d p hn, maybeFinish_complete]
  · rw [moveCommit_step cfg clock s repo d p hn]
  · rw [moveCommit_step cfg clock s repo d p hn]

/-! ## Sorting lemmas for the view projection -/

theorem mem_insertSorted (a x : String) : ∀ l : List String,
    a ∈ insertSorted x l ↔ a = x ∨ a ∈ l
  | [] => by simp [insertSorted]
  | y :: ys => by
    simp only [insertSorted]
    by_cases h : lexLe x y = true
    · rw [if_pos h]
      simp only [List.mem_cons]
    · rw [if_neg h]
      simp only [List.mem_cons, mem_insertSorted a x ys]
      tauto

theorem mem_sortStrings (a : String) : ∀ l : List String,
    a ∈ sortStrings l ↔ a ∈ l
  | [] => Iff.rfl
  | x :: xs => by
    simp only [sortStrings, mem_insertSorted, List.mem_cons, mem_sortStrings a xs]

/-! ## Claim theorems -/

/-- C1: while no puzzle is pending, a resolved movement direction is
handled in three mutually exclusive ways. If the topology provider
reports an unsolved gate for (position, direction), the engine sets
`pending_gate_id` to that gate and refuses with "Puzzle required." and no
position, move-count or store change. If the provider reports no
resulting position, it refuses with "Blocked path." and no mutation.
Otherwise the move commits: the position becomes the provider's declared
destination, the move count grows by exactly one, the call persists, and
the stored record carries status `in_progress` unless this move reached
the exit cell (then `completed`). -/
theorem c1_movement_gating_commit (cfg : Cfg) (clock : Clock) (s : Session) (repo : Repo)
    (cmd : Command) (d : Direction)
    (hd : resolvedMoveDirection cmd = some d)
    (hp : s.pending_gate_id = none) :
    (∀ g, cfg.maze.gate_id_for s.pos d = some g → g ∉ s.solved_gates →
      handle cfg clock s repo cmd =
        ({ s with pending_gate_id := some g }, repo,
          { view := makeView cfg { s with pending_gate_id := some g },
            messages := ["Puzzle required."], did_persist := false }))
    ∧ ((cfg.maze.gate_id_for s.pos d = none ∨
          ∃ g, cfg.maze.gate_id_for s.pos d = some g ∧ g ∈ s.solved_gates) →
        cfg.maze.next_pos s.pos d = none →
        handle cfg clock s repo cmd =
          (s, repo, { view := makeView cfg s, messages := ["Blocked path."], did_persist := false }))
    ∧ (∀ p, (cfg.maze.gate_id_for s.pos d = none ∨
          ∃ g, cfg.maze.gate_id_for s.pos d = some g ∧ g ∈ s.solved_gates) →
        cfg.maze.next_pos s.pos d = some p →
        (handle cfg clock s repo cmd).1.pos = p
        ∧ (handle cfg clock s repo cmd).1.move_count = s.move_count + 1
        ∧ (handle cfg clock s repo cmd).2.2.did_persist = true
        ∧ (handle cfg clock s repo cmd).1.is_complete
            = (s.is_complete || decide (p = cfg.maze.exitPos))
        ∧ (handle cfg clock s repo cmd).2.1.get_game cfg.game_id =
            some { state := serializeState clock (handle cfg clock s repo cmd).1,
                   status := if p = cfg.maze.exitPos then "completed" else "in_progress" }) := by
  rw [handle_eq_applyMove cfg clock s repo cmd d hd]
  refine ⟨?_, ?_, ?_⟩
  · intro g hg hm
    exact applyMove_gate cfg clock s repo d g hp hg hm
  · intro hg hn
    rw [applyMove_eq_moveCommit cfg clock s repo d hp hg]
    exact moveCommit_blocked cfg clock s repo d hn
  · intro p hg hn
    rw [applyMove_eq_moveCommit cfg clock s repo d hp hg]
    obtain ⟨e1, e2, -, e4, e5, -, e7⟩ := moveCommit_commit cfg clock s repo d p hn
    exact ⟨e1, e2, e5, e4, e7⟩

/-- Witness for C1 at the example maze: from the start, `go E` crosses the
unsolved gate, so the engine sets the pending gate and refuses. -/
theorem c1_witness :
    handle testCfg testClock initSession testRepo { verb := "go", args := ["E"] } =
      (pendingSession, testRepo,
        { view := makeView testCfg pendingSession,
          messages := ["Puzzle required."], did_persist := false }) :=
  (c1_movement_gating_commit testCfg testClock initSession testRepo
      { verb := "go", args := ["E"] } Direction.E (by decide) (by decide)).1
    "gate-1" (by decide) (by decide)

/-- C2: while a gate is pending, every movement command (the single-letter
shorthands and `go` with any recognized direction) is refused with
"Solve the pending puzzle first." and no change to the session (position,
move count, solved gates, pending gate) or the store, while `look`, `map`,
`save` and `answer` still reach their normal arms: `look`/`map` return the
view without mutation, `save` persists with the session unchanged, and
`answer` is dispatched to the answer logic. -/
theorem c2_pending_blocks_movement (cfg : Cfg) (clock : Clock) (s : Session) (repo : Repo)
    (g : String) (hp : s.pending_gate_id = some g) :
    (∀ cmd d, resolvedMoveDirection cmd = some d →
      handle cfg clock s repo cmd =
        (s, repo,
          { view := makeView cfg s,
            messages := ["Solve the pending puzzle first."], did_persist := false }))
    ∧ (∀ cmd, normVerb cmd = "look" ∨ normVerb cmd = "map" →
        handle cfg clock s repo cmd =
          (s, repo, { view := makeView cfg s, messages := [], did_persist := false }))
    ∧ (∀ cmd, normVerb cmd = "save" →
        handle cfg clock s repo cmd = saveStep cfg clock s repo
        ∧ (saveStep cfg clock s repo).1 = s
        ∧ (saveStep cfg clock s repo).2.2.did_persist = true)
    ∧ (∀ cmd, normVerb cmd = "answer" →
        handle cfg clock s repo cmd = answerStep cfg clock s repo cmd.args) := by
  refine ⟨?_, ?_, ?_, ?_⟩
  · intro cmd d hd
    rw [handle_eq_applyMove cfg clock s repo cmd d hd]
    exact applyMove_pending cfg clock s repo d g hp
  · intro cmd hv
    exact handle_eq_look cfg clock s repo cmd hv
  · intro cmd hv
    exact ⟨handle_eq_saveStep cfg clock s repo cmd hv, rfl, rfl⟩
  · intro cmd hv
    exact handle_eq_answerStep cfg clock s repo cmd hv

/-- Witness for C2: with the example gate pending, moving north is refused
with the pending-puzzle message and no state change. -/
theorem c2_witness :
    handle testCfg testClock pendingSession testRepo { verb := "n", args := [] } =
      (pendingSession, testRepo,
        { view := makeView testCfg pendingSession,
          messages := ["Solve the pending puzzle first."], did_persist := false }) :=
  (c2_pending_blocks_movement testCfg testClock pendingSession testRepo "gate-1" rfl).1
    { verb := "n", args := [] } Direction.N (by decide)

/-- C3: an `answer` command while gate `g` is pending either succeeds —
the gate id joins `solved_gates`, the pending gate clears, the state is
persisted with status `in_progress` (visible in the store), "Correct." is
emitted and `did_persist` is true — or fails, leaving every session field
and the store unchanged, with the gate still pending, "Incorrect answer."
and `did_persist` false.  An `answer` with no pending gate changes
nothing, emits "No pending puzzle." and never persists. -/
theorem c3_answer_semantics (cfg : Cfg) (clock : Clock) (s : Session) (repo : Repo)
    (cmd : Command) (hv : normVerb cmd = "answer") :
    (∀ g, s.pending_gate_id = some g →
      ((cfg.puzzles g).check (pyStrip (String.intercalate " " cmd.args))
          (serializeState clock s) = true →
        g ∈ setAdd g s.solved_gates
        ∧ handle cfg clock s repo cmd =
          ({ s with solved_gates := setAdd g s.solved_gates, pending_gate_id := none },
            persist cfg clock
              { s with solved_gates := setAdd g s.solved_gates, pending_gate_id := none }
              repo "in_progress",
            { view := makeView cfg
                { s with solved_gates := setAdd g s.solved_gates, pending_gate_id := none },
              messages := ["Correct."], did_persist := true })
        ∧ (handle cfg clock s repo cmd).2.1.get_game cfg.game_id =
            some { state := serializeState clock
                     { s with solved_gates := setAdd g s.solved_gates, pending_gate_id := none },
                   status := "in_progress" })
      ∧ ((cfg.puzzles g).check (pyStrip (String.intercalate " " cmd.args))
          (serializeState clock s) = false →
        handle cfg clock s repo cmd =
          (s, repo,
            { view := makeView cfg s, messages := ["Incorrect answer."], did_persist := false })))
    ∧ (s.pending_gate_id = none →
      handle cfg clock s repo cmd =
        (s, repo,
          { view := makeView cfg s, messages := ["No pending puzzle."], did_persist := false })) := by
  rw [handle_eq_answerStep cfg clock s repo cmd hv]
  refine ⟨?_, ?_⟩
  · intro g hg
    constructor
    · intro hcheck
      refine ⟨?_, ?_, ?_⟩
      · by_cases hmem : g ∈ s.solved_gates <;> simp [setAdd, hmem]
      · simp [answerStep, hg, hcheck]
      · simp only [answerStep, hg]
        rw [if_pos hcheck]
        exact get_game_persist cfg clock _ repo "in_progress"
    · intro hcheck
      simp [answerStep, hg, hcheck]
  · intro hg
    simp [answerStep, hg]

/-- Witness for C3 at the example maze: answering "solve" while the gate
is pending marks it solved, clears the pending gate and persists. -/
theorem c3_witness :
    handle testCfg testClock pendingSession testRepo { verb := "answer", args := ["solve"] } =
      (solvedSession, persist testCfg testClock solvedSession testRepo "in_progress",
        { view := makeView testCfg solvedSession,
          messages := ["Correct."], did_persist := true }) :=
  (((c3_answer_semantics testCfg testClock pendingSession testRepo
      { verb := "answer", args := ["solve"] } (by decide)).1
    "gate-1" rfl).1 (by decide)).2.1

/-- C7: malformed or currently-illegal input — an unknown verb, a `go`
with an unrecognized direction token, movement while a puzzle is pending,
a blocked path, or an `answer` with nothing pending — always returns
normally with a message, the session and store unchanged, and
`did_persist` false.  (`handle` is total by construction, so no input
raises.) -/
theorem c7_invalid_input_degrades (cfg : Cfg) (clock : Clock) (s : Session) (repo : Repo) :
    (∀ cmd, normVerb cmd ∉ ["look", "map", "save", "answer", "n", "s", "e", "w", "go"] →
      handle cfg clock s repo cmd =
        (s, repo,
          { view := makeView cfg s, messages := ["Unknown command."], did_persist := false }))
    ∧ (∀ cmd, normVerb cmd = "go" → directionFromToken cmd.args.head? = none →
      handle cfg clock s repo cmd =
        (s, repo,
          { view := makeView cfg s, messages := ["Invalid direction."], did_persist := false }))
    ∧ (∀ cmd d g, resolvedMoveDirection cmd = some d → s.pending_gate_id = some g →
      handle cfg clock s repo cmd =
        (s, repo,
          { view := makeView cfg s,
            messages := ["Solve the pending puzzle first."], did_persist := false }))
    ∧ (∀ cmd d, resolvedMoveDirection cmd = some d → s.pending_gate_id = none →
      (cfg.maze.gate_id_for s.pos d = none ∨
        ∃ g, cfg.maze.gate_id_for s.pos d = some g ∧ g ∈ s.solved_gates) →
      cfg.maze.next_pos s.pos d = none →
      handle cfg clock s repo cmd =
        (s, repo,
          { view := makeView cfg s, messages := ["Blocked path."], did_persist := false }))
    ∧ (∀ cmd, normVerb cmd = "answer" → s.pending_gate_id = none →
      handle cfg clock s repo cmd =
        (s, repo,
          { view := makeView cfg s, messages := ["No pending puzzle."], did_persist := false })) := by
  refine ⟨?_, ?_, ?_, ?_, ?_⟩
  · intro cmd hv
    exact handle_eq_unknown cfg clock s repo cmd hv
  · intro cmd hv hd
    simp [handle, hv, hd, applyMove]
  · intro cmd d g hd hp
    rw [handle_eq_applyMove cfg clock s repo cmd d hd]
    exact applyMove_pending cfg clock s repo d g hp
  · intro cmd d hd hp hg hn
    rw [handle_eq_applyMove cfg clock s repo cmd d hd,
      applyMove_eq_moveCommit cfg clock s repo d hp hg]
    exact moveCommit_blocked cfg clock s repo d hn
  · intro cmd hv hp
    rw [handle_eq_answerStep cfg clock s repo cmd hv]
    simp [answerStep, hp]

/-- Witness for C7: the unrecognized verb `warp` degrades to a message
with no state change. -/
theorem c7_witness :
    handle testCfg testClock initSession testRepo { verb := "warp", args := ["now"] } =
      (initSession, testRepo,
        { view := makeView testCfg initSession,
          messages := ["Unknown command."], did_persist := false }) :=
  (c7_invalid_input_degrades testCfg testClock initSession testRepo).1
    { verb := "warp", args := ["now"] } (by decide)

/-- C4: (i) the first committed move that lands on the exit cell (from a
session that has not completed and not recorded a score) sets
`is_complete` and appends exactly one score record whose metrics carry
the session's move count and solved-gate count; (ii) once `is_complete`
is true it stays true across any further command sequence of the same
instance; (iii) over any whole command sequence of one fresh instance the
ledger grows by exactly one record when the session ends complete and by
none otherwise. -/
theorem c4_completion_single_score (cfg : Cfg) (clock : Clock) :
    (∀ (s : Session) (repo : Repo) (cmd : Command) (d : Direction) (p : Position),
      s.is_complete = false → s.score_recorded = false → s.pending_gate_id = none →
      resolvedMoveDirection cmd = some d →
      (cfg.maze.gate_id_for s.pos d = none ∨
        ∃ g, cfg.maze.gate_id_for s.pos d = some g ∧ g ∈ s.solved_gates) →
      cfg.maze.next_pos s.pos d = some p → p = cfg.maze.exitPos →
      (handle cfg clock s repo cmd).1.is_complete = true
      ∧ (handle cfg clock s repo cmd).2.1.scores =
          { player_id := cfg.player_id, game_id := cfg.game_id,
            maze_id := cfg.maze.maze_id, maze_version := cfg.maze.maze_version,
            metrics :=
              { elapsed_seconds := clock.elapsed s.started_at,
                moves := s.move_count + 1,
                puzzles_solved := s.solved_gates.length } } :: repo.scores)
    ∧ (∀ (s : Session) (repo : Repo) (cs : List Command), s.is_complete = true →
        (run cfg clock s repo cs).1.is_complete = true)
    ∧ (∀ (s : Session) (repo : Repo) (cs : List Command),
        s.is_complete = false → s.score_recorded = false →
        (run cfg clock s repo cs).2.scores.length =
          repo.scores.length +
            (if (run cfg clock s repo cs).1.is_complete then 1 else 0)) := by
  refine ⟨?_, ?_, ?_⟩
  · intro s repo cmd d p hic hsr hp hd hg hn hexit
    rw [handle_eq_applyMove cfg clock s repo cmd d hd,
      applyMove_eq_moveCommit cfg clock s repo d hp hg,
      moveCommit_step cfg clock s repo d p hn]
    have hc1 : ({ s with pos := p, move_count := s.move_count + 1 } : Session).pos
        = cfg.maze.exitPos := hexit
    rw [maybeFinish_exit_fresh cfg clock _ repo hc1 hsr]
    exact ⟨rfl, rfl⟩
  · intro s repo cs h
    exact run_complete_mono cfg clock cs s repo h
  · intro s repo cs hic hsr
    have hinv : ScoreInv repo.scores s repo := Or.inl ⟨hsr, hic, rfl⟩
    rcases run_scoreInv cfg clock cs s repo repo.scores hinv with ⟨-, h2, h3⟩ | ⟨-, h2, h3⟩
    · rw [h2, h3]; simp
    · rw [h2, h3]; simp

/-- Witness for C4 at the example maze: walking straight to the exit
leaves the ledger with exactly one score record. -/
theorem c4_witness :
    (run testCfg testClock initSession testRepo exitWalk).2.scores.length = 1 := by
  have h := (c4_completion_single_score testCfg testClock).2.2
    initSession testRepo exitWalk rfl rfl
  simpa using h

/-- C9: after completion, movement is still accepted and applied — a
successful move from a completed session updates the position, increments
the move count, keeps the in-memory `is_complete` flag true, and (when
the new position is not the exit) persists the record with status
`in_progress`; a reload from that store therefore reconstructs
`is_complete` as false, because loading derives the flag from the status
tag. -/
theorem c9_post_completion_moves (cfg : Cfg) (clock : Clock) (s : Session) (repo : Repo)
    (cmd : Command) (d : Direction) (p : Position)
    (hic : s.is_complete = true)
    (hp : s.pending_gate_id = none)
    (hd : resolvedMoveDirection cmd = some d)
    (hg : cfg.maze.gate_id_for s.pos d = none ∨
      ∃ g, cfg.maze.gate_id_for s.pos d = some g ∧ g ∈ s.solved_gates)
    (hn : cfg.maze.next_pos s.pos d = some p)
    (hexit : p ≠ cfg.maze.exitPos) :
    (handle cfg clock s repo cmd).1.pos = p
    ∧ (handle cfg clock s repo cmd).1.move_count = s.move_count + 1
    ∧ (handle cfg clock s repo cmd).1.is_complete = true
    ∧ (handle cfg clock s repo cmd).2.2.did_persist = true
    ∧ (handle cfg clock s repo cmd).2.1.get_game cfg.game_id =
        some { state := serializeState clock (handle cfg clock s repo cmd).1,
               status := "in_progress" }
    ∧ Except.map Session.is_complete
        (mkSession cfg.maze (handle cfg clock s repo cmd).2.1 cfg.game_id) =
      Except.ok false := by
  rw [handle_eq_applyMove cfg clock s repo cmd d hd,
    applyMove_eq_moveCommit cfg clock s repo d hp hg]
  obtain ⟨e1, e2, -, e4, e5, -, e7⟩ := moveCommit_commit cfg clock s repo d p hn
  rw [if_neg hexit] at e7
  refine ⟨e1, e2, ?_, e5, e7, ?_⟩
  · rw [e4, hic]; simp
  · unfold mkSession
    rw [e7]
    simp [Except.map]

/-- Witness for C9: after completing the example maze, moving west off the
exit still succeeds, persists `in_progress`, and a reload reports the
game as not complete. -/
theorem c9_witness :
    (handle testCfg testClock
        (run testCfg testClock initSession testRepo exitWalk).1
        (run testCfg testClock initSession testRepo exitWalk).2
        { verb := "w", args := [] }).1.move_count = 5
    ∧ Except.map Session.is_complete
        (mkSession testMaze
          (handle testCfg testClock
            (run testCfg testClock initSession testRepo exitWalk).1
            (run testCfg testClock initSession testRepo exitWalk).2
            { verb := "w", args := [] }).2.1 "g1") =
      Except.ok false := by
  have h := c9_post_completion_moves testCfg testClock
    (run testCfg testClock initSession testRepo exitWalk).1
    (run testCfg testClock initSession testRepo exitWalk).2
    { verb := "w", args := [] } Direction.W { row := 2, col := 1 }
    (by decide) (by decide) (by decide) (Or.inl (by decide)) (by decide) (by decide)
  refine ⟨?_, h.2.2.2.2.2⟩
  rw [h.2.1]
  decide

/-- C10: the view's `available_moves` is exactly the alphabetically
sorted list of direction names the topology provider returns for the
current position; every provided direction appears — gated or not — and
the field does not depend on `solved_gates` or on a pending puzzle at
all. -/
theorem c10_view_moves_unfiltered (cfg : Cfg) (s : Session) :
    (makeView cfg s).available_moves =
      sortStrings ((cfg.maze.available_moves s.pos).map Direction.name)
    ∧ (∀ d, d ∈ cfg.maze.available_moves s.pos →
        Direction.name d ∈ (makeView cfg s).available_moves)
    ∧ (∀ (pg : Option String) (sg : List String),
        (makeView cfg { s with pending_gate_id := pg, solved_gates := sg }).available_moves =
          (makeView cfg s).available_moves) := by
  refine ⟨rfl, ?_, fun pg sg => rfl⟩
  intro d hd
  show Direction.name d ∈ sortStrings ((cfg.maze.available_moves s.pos).map Direction.name)
  exact (mem_sortStrings _ _).mpr (List.mem_map_of_mem Direction.name hd)

/-- Witness for C10: at the example maze's start the view lists the gated
east exit even though its gate is unsolved. -/
theorem c10_witness :
    Direction.name Direction.E ∈ (makeView testCfg initSession).available_moves :=
  (c10_view_moves_unfiltered testCfg initSession).2.1 Direction.E (by decide)

/-- C8: the puzzle registry's `get` is a total function that never
signals a missing puzzle: an id present in the catalogue resolves to a
puzzle bearing that id, and any other string — including ids absent from
the catalogue — resolves to the fixed fallback puzzle. -/
theorem c8_registry_total_fallback (pid : String) :
    (pid ∈ catalogueIds ∧ (registryGet pid).id = pid)
    ∨ (pid ∉ catalogueIds ∧ registryGet pid = fallbackPuzzle) := by
  by_cases hmem : pid ∈ catalogueIds
  · left
    refine ⟨hmem, ?_⟩
    obtain ⟨q, hq, hid⟩ := List.mem_map.mp hmem
    have hsome : (puzzleCatalogue.reverse.find? (fun p => p.id = pid)).isSome := by
      rw [List.find?_isSome]
      exact ⟨q, List.mem_reverse.mpr hq, by simp [hid]⟩
    obtain ⟨r, hr⟩ := Option.isSome_iff_exists.mp hsome
    have hrid := List.find?_some hr
    unfold registryGet
    rw [hr]
    simpa using hrid
  · right
    refine ⟨hmem, ?_⟩
    have hnone : puzzleCatalogue.reverse.find? (fun p => p.id = pid) = none := by
      rw [List.find?_eq_none]
      intro p hp
      simp only [decide_eq_true_eq]
      intro hpid
      exact hmem (List.mem_map.mpr ⟨p, List.mem_reverse.mp hp, hpid⟩)
    unfold registryGet
    rw [hnone]

/-- Witness for C8: an id absent from the catalogue resolves to the
fallback puzzle. -/
theorem c8_witness : registryGet "ghost-gate" = fallbackPuzzle := by
  rcases c8_registry_total_fallback "ghost-gate" with ⟨hmem, -⟩ | ⟨-, hfb⟩
  · exact absurd hmem (by decide)
  · exact hfb

/-- C5 counterexample: the claim quantifies over *every* engine that has
just persisted.  Complete the example maze and then step off the exit:
that final move persists the current serialized state with status
`in_progress`, the in-memory flag of engine A is still true, yet an
engine B loaded from the same store reconstructs `is_complete = false`.
So B's view does not always match A's at the point of persistence. -/
theorem c5_counterexample :
    (run testCfg testClock initSession testRepo exitWalkAndBack).1.is_complete = true
    ∧ (run testCfg testClock initSession testRepo exitWalkAndBack).2.get_game "g1" =
        some { state := serializeState testClock
                 (run testCfg testClock initSession testRepo exitWalkAndBack).1,
               status := "in_progress" }
    ∧ Except.map Session.is_complete
        (mkSession testMaze
          (run testCfg testClock initSession testRepo exitWalkAndBack).2 "g1") =
      Except.ok false :=
  ⟨by decide, by decide, rfl⟩

/-- C5 (amended): whenever the store holds engine A's just-serialized
state, an engine B constructed from the same game id recovers A's
position and move count exactly and always starts with no pending gate;
B's completion flag equals the status tag's verdict, so it matches A's
flag precisely when the record was persisted with status `completed` iff
A was complete (as a `save` does) — not after a post-completion move,
which persists `in_progress` while A's flag stays true. -/
theorem c5_round_trip_amended (maze : Maze) (repo : Repo) (gid : String) (clock : Clock)
    (s : Session) (status : String) (sB : Session)
    (hpers : repo.get_game gid = some { state := serializeState clock s, status := status })
    (hload : mkSession maze repo gid = Except.ok sB) :
    sB.pos = s.pos ∧ sB.move_count = s.move_count ∧ sB.pending_gate_id = none
    ∧ (status = (if s.is_complete then "completed" else "in_progress") →
        sB.is_complete = s.is_complete) := by
  unfold mkSession at hload
  rw [hpers] at hload
  simp only [Except.ok.injEq] at hload
  subst hload
  refine ⟨rfl, rfl, rfl, ?_⟩
  intro hst
  subst hst
  cases hic : s.is_complete <;> simp [serializeState, hic]

/-- Witness for C5 (amended): save the fresh game and reload it — the
rebuilt session matches. -/
theorem c5_witness :
    ((mkSession testMaze
        (handle testCfg testClock initSession testRepo { verb := "save", args := [] }).2.1
        "g1").toOption.map Session.pos) = some initSession.pos := by
  have h := c5_round_trip_amended testMaze
    (handle testCfg testClock initSession testRepo { verb := "save", args := [] }).2.1
    "g1" testClock initSession "in_progress" initSession (by decide) rfl
  rw [show (mkSession testMaze
      (handle testCfg testClock initSession testRepo { verb := "save", args := [] }).2.1
      "g1") = Except.ok initSession from rfl]
  exact congrArg some h.1

/-- C6 counterexample: constructing an engine for a game id the store
does not know aborts with Python's generic `KeyError`, not with a
distinct `UnknownGameError` kind as the claim states. -/
theorem c6_counterexample :
    mkSession testMaze { games := [], scores := [] } "g1" =
      Except.error (PyError.keyError "Unknown game_id: g1")
    ∧ (PyError.keyError "Unknown game_id: g1").isUnknownGame = false :=
  ⟨rfl, rfl⟩

/-- C6 (amended): for every game id the store has no record of, engine
construction aborts — no session is produced — raising a `KeyError`
whose message names the unknown game id (the source has no distinct
`UnknownGameError` kind). -/
theorem c6_unknown_game_aborts (maze : Maze) (repo : Repo) (gid : String)
    (h : repo.get_game gid = none) :
    mkSession maze repo gid = Except.error (PyError.keyError ("Unknown game_id: " ++ gid)) := by
  unfold mkSession
  rw [h]

/-- Witness for C6 (amended) at a concrete empty store. -/
theorem c6_witness :
    mkSession testMaze { games := [], scores := [] } "nope" =
      Except.error (PyError.keyError "Unknown game_id: nope") :=
  c6_unknown_game_aborts testMaze { games := [], scores := [] } "nope" rfl

end QuizMaze
